import Mathlib

/-!
Shallow embedding of the `typederror` crate (src/error.rs).

The crate wraps `anyhow::Error` — a type-erased chain of one root cause plus
zero or more context frames, newest outermost — in a phantom-tagged container
`TError<E>`.  We model a dynamic (type-erased) value as an `ErrVal` carrying a
runtime type identifier (`tyId`, standing for Rust's `TypeId`), an encoded
payload, its `Display` text and the messages of its nested `source` chain.
A Rust type is identified with its `tyId`; the phantom tag `E` of `TError<E>`
becomes a `Nat` index of the Lean type `TError`.

The `anyhow` chain primitive is external to the crate, but the crate's own
tests pin down its observable behaviour (src/error.rs lines 255-282):
`context` pushes a typed frame on top, `downcast`/`downcast_ref` search the
chain newest-first (a context value of the requested type shadows the root:
see the `e3` assertion at line 268), `Display` shows the outermost element and
`Debug` lists every frame newest-first followed by the root cause and its
nested sources.
-/

/-- A type-erased failure value: a runtime type identifier (Rust `TypeId`),
an encoded payload distinguishing values of the same type, the `Display`
text, and the `Display` texts of the value's nested `source` chain. -/
structure ErrVal where
  tyId : Nat
  payload : Nat
  msg : String
  sources : List String
deriving DecidableEq

/-- The reserved type identifier of Rust's `String`.  `Result::context`
(src/error.rs line 147) stores `context.to_string()`, i.e. a `String`-typed
frame.  `String` does not implement `std::error::Error`, so the `SomeError`
of a `Result<T, SomeError>` never has this identifier. -/
def strTy : Nat := 0

/-- A `String` viewed as a dynamic value: its display text is itself and it
has no nested sources. -/
def strVal (s : String) : ErrVal :=
  { tyId := strTy, payload := 0, msg := s, sources := [] }

/-- `anyhow::Error`: one root cause wrapped by zero or more context frames,
the newest frame outermost. -/
inductive AnyhowError where
  | root (v : ErrVal)
  | ctx (c : ErrVal) (rest : AnyhowError)
deriving DecidableEq

/-- `anyhow::Error::new(v)`: a chain with root cause `v` and no frames. -/
def AnyhowError.new (v : ErrVal) : AnyhowError := .root v

/-- `anyhow::Error::context(self, c)`: push `c` as the newest (outermost)
frame; the previous chain is carried unchanged underneath. -/
def AnyhowError.context (e : AnyhowError) (c : ErrVal) : AnyhowError := .ctx c e

/-- `anyhow::Error::downcast_ref::<T>`: search the chain newest-first for an
element (context frame or root cause) whose runtime type is `tid`; context
frames attached as typed values are candidates just like the root. -/
def AnyhowError.downcast_ref (tid : Nat) : AnyhowError → Option ErrVal
  | .root v => if v.tyId = tid then some v else none
  | .ctx c rest => if c.tyId = tid then some c else rest.downcast_ref tid

/-- `anyhow::Error::downcast::<T>`: the owned form of the same search; on a
miss the original chain is returned unchanged in the failure branch. -/
def AnyhowError.downcast (tid : Nat) (e : AnyhowError) : Except AnyhowError ErrVal :=
  match e.downcast_ref tid with
  | some v => .ok v
  | none => .error e

/-- `Display for anyhow::Error`: the outermost element's text — the newest
context frame if any frames exist, else the root cause's text. -/
def AnyhowError.display : AnyhowError → String
  | .root v => v.msg
  | .ctx c _ => c.msg

/-- `Debug for anyhow::Error` (alternate chain form), abstracted to the list
of messages it prints in order: every frame newest-first, then the root
cause's text, then the root cause's own nested source texts. -/
def AnyhowError.debugLines : AnyhowError → List String
  | .root v => v.msg :: v.sources
  | .ctx c rest => c.msg :: rest.debugLines

/-- `TError<E>` (src/error.rs lines 14-17): an `anyhow::Error` plus a
phantom tag.  The tag is a type-level `Nat` — no runtime field. -/
structure TError (tag : Nat) where
  error : AnyhowError
deriving DecidableEq

/-- `TError::from_anyhow` (src/error.rs lines 38-43). -/
def TError.from_anyhow {tag : Nat} (e : AnyhowError) : TError tag := ⟨e⟩

/-- `TError::from_msg` (src/error.rs lines 45-50): root cause is a plain
string failure built by `anyhow!`. -/
def TError.from_msg {tag : Nat} (s : String) : TError tag := ⟨.root (strVal s)⟩

/-- `impl From<SRC> for TError<DST>` (src/error.rs lines 109-117): the raw
source failure becomes the root cause via `anyhow::Error::new` — no `Into`
conversion to `DST` happens.  This is what the `?` operator invokes. -/
def TError.from_src {dst : Nat} (v : ErrVal) : TError dst := ⟨.root v⟩

/-- `TError::try_get` (src/error.rs lines 53-58): downcast to the tag type,
repackaging the unchanged chain in a fresh container on failure. -/
def TError.try_get {tag : Nat} (e : TError tag) : Except (TError tag) ErrVal :=
  match e.error.downcast tag with
  | .ok v => .ok v
  | .error err => .error ⟨err⟩

/-- `TError::get_ref` (src/error.rs lines 61-63). -/
def TError.get_ref {tag : Nat} (e : TError tag) : Option ErrVal :=
  e.error.downcast_ref tag

/-- `TError::downcast_ref::<T>` (src/error.rs lines 66-68). -/
def TError.downcast_ref {tag : Nat} (tid : Nat) (e : TError tag) : Option ErrVal :=
  e.error.downcast_ref tid

/-- `TError::downcast::<T>` (src/error.rs lines 70-75). -/
def TError.downcast {tag : Nat} (tid : Nat) (e : TError tag) : Except (TError tag) ErrVal :=
  match e.error.downcast tid with
  | .ok v => .ok v
  | .error err => .error ⟨err⟩

/-- `TError::context` (src/error.rs lines 78-87): the context value `c` is
stored as a typed value (not stringified) on top of the chain. -/
def TError.context {tag : Nat} (e : TError tag) (c : ErrVal) : TError tag :=
  ⟨e.error.context c⟩

/-- `TError::with_context` (src/error.rs lines 90-96): `self.context(context())`. -/
def TError.with_context {tag : Nat} (e : TError tag) (f : Unit → ErrVal) : TError tag :=
  e.context (f ())

/-- `TError::change_err` (src/error.rs lines 99-104): retag; the chain is
carried forward unchanged. -/
def TError.change_err {tag : Nat} (t : Nat) (e : TError tag) : TError t :=
  ⟨e.error⟩

/-- `impl Display for TError` (src/error.rs lines 25-29): delegates. -/
def TError.display {tag : Nat} (e : TError tag) : String := e.error.display

/-- `impl Debug for TError` (src/error.rs lines 19-23): delegates. -/
def TError.debugLines {tag : Nat} (e : TError tag) : List String := e.error.debugLines

/-- `TError::get` (src/error.rs lines 183-186), available when the tag type
implements `DefaultError`; the trait's `from_anyhow` rule is passed as `d`. -/
def TError.get {tag : Nat} (d : AnyhowError → ErrVal) (e : TError tag) : ErrVal :=
  match e.try_get with
  | .ok v => v
  | .error err => d err.error

/-- `impl Context for Result :: context` (src/error.rs lines 141-153):
on the error path, lift the raw error as root cause and attach ONE frame
holding `context.to_string()` — a `String`-typed value, not `c` itself. -/
def Result.context {x : Nat} {α : Type} (r : Except ErrVal α) (c : ErrVal) :
    Except (TError x) α :=
  match r with
  | .ok v => .ok v
  | .error err => .error ⟨(AnyhowError.new err).context (strVal c.msg)⟩

/-- `impl Context for Result :: with_context` (src/error.rs lines 155-161):
literally `self.context(f())`. -/
def Result.with_context {x : Nat} {α : Type} (r : Except ErrVal α) (f : Unit → ErrVal) :
    Except (TError x) α :=
  Result.context r (f ())

/-- A closure instrumented with an invocation counter: running it returns its
value and bumps the count. -/
def Traced.tick (v : ErrVal) : Nat → ErrVal × Nat := fun n => (v, n + 1)

/-- `Result::with_context` under Rust's strict evaluation, with closure
invocations counted by explicit state passing.  The body `self.context(f())`
(src/error.rs line 160) evaluates the argument `f()` before `context` ever
inspects `self`, so the closure runs first unconditionally. -/
def Result.with_context_traced {x : Nat} {α : Type} (r : Except ErrVal α)
    (f : Nat → ErrVal × Nat) : Nat → (Except (TError x) α) × Nat :=
  fun n =>
    let p := f n
    (Result.context r p.1, p.2)

/-- `impl IntoTError for Result :: terror` (src/error.rs lines 194-206):
`self.map_err(|e| TError::new-from(e.into()))`.  The `EIn: Into<EOut>`
conversion is the function `conv`; the converted value becomes the root. -/
def IntoTError.terror {dst : Nat} {α : Type} (conv : ErrVal → ErrVal)
    (r : Except ErrVal α) : Except (TError dst) α :=
  match r with
  | .ok v => .ok v
  | .error e => .error ⟨AnyhowError.new (conv e)⟩

/-! Concrete instances mirroring the crate's test fixtures
(src/error.rs lines 214-247): the primary enumeration `MyError` with
variants `One`, `Two(Box<dyn Error>)` (the `DefaultError` catch-all) and
`Three(std::io::Error)` (the variant that specifically wraps I/O failures),
plus the unrelated `OtherError` and an `std::io::Error` value. -/

/-- Runtime type identifier of the primary enumeration `MyError`. -/
def myErrTy : Nat := 1

/-- Runtime type identifier of `std::io::Error`. -/
def ioTy : Nat := 2

/-- Runtime type identifier of `OtherError`. -/
def otherTy : Nat := 3

/-- `MyError::One` (payload 1 encodes the variant). -/
def myOne : ErrVal :=
  { tyId := myErrTy, payload := 1, msg := "something went wrong", sources := [] }

/-- `MyError::Two(inner)`: the catch-all variant boxing a whole chain; its
source chain is the boxed chain's debug listing. -/
def myTwo (inner : AnyhowError) : ErrVal :=
  { tyId := myErrTy, payload := 2, msg := "Error two", sources := inner.debugLines }

/-- A bare `MyError::Two(..)` value used as a context attachment, as in the
crate's `test_err` (src/error.rs line 267). -/
def myTwoCtx : ErrVal :=
  { tyId := myErrTy, payload := 2, msg := "Error two", sources := ["other error"] }

/-- `MyError::Three(io)`: wraps an I/O failure; `thiserror`'s `#[from]`
makes the I/O failure its source and its display `io error: {0}`. -/
def myThree (io : ErrVal) : ErrVal :=
  { tyId := myErrTy, payload := 3, msg := "io error: " ++ io.msg,
    sources := io.msg :: io.sources }

/-- `impl DefaultError for MyError` (src/error.rs lines 224-228):
`MyError::Two(err.into())`. -/
def myErrorFromAnyhow (e : AnyhowError) : ErrVal := myTwo e

/-- A concrete `std::io::Error` value. -/
def ioVal : ErrVal :=
  { tyId := ioTy, payload := 0,
    msg := "No such file or directory (os error 2)", sources := [] }

/-- A concrete `OtherError` value (src/error.rs lines 230-239). -/
def otherVal : ErrVal :=
  { tyId := otherTy, payload := 0, msg := "OtherError", sources := [] }

/-! Helper lemmas shared by several claims. -/

/-- Attaching a context frame whose runtime type differs from the searched
type does not change the result of `downcast_ref`. -/
theorem AnyhowError.downcast_ref_context_ne (tid : Nat) (e : AnyhowError)
    (c : ErrVal) (h : c.tyId ≠ tid) :
    (e.context c).downcast_ref tid = e.downcast_ref tid := by
  simp [AnyhowError.context, AnyhowError.downcast_ref, h]

/-- Folding a list of context attachments whose types all differ from the
tag leaves `get_ref` unchanged. -/
theorem TError.get_ref_foldl_context {tag : Nat} (cs : List ErrVal)
    (e : TError tag) (h : ∀ c ∈ cs, c.tyId ≠ tag) :
    (cs.foldl TError.context e).get_ref = e.get_ref := by
  induction cs generalizing e with
  | nil => rfl
  | cons c cs ih =>
      have hc : c.tyId ≠ tag := h c (List.mem_cons_self c cs)
      have hrest : ∀ c' ∈ cs, c'.tyId ≠ tag := fun c' hc' => h c' (List.mem_cons_of_mem c hc')
      have := ih (e.context c) hrest
      rw [List.foldl_cons, this]
      show (e.context c).error.downcast_ref tag = e.error.downcast_ref tag
      exact AnyhowError.downcast_ref_context_ne tag e.error c hc

/-- When no element of the chain has the searched type, the owned downcast
fails with the chain unchanged. -/
theorem AnyhowError.downcast_miss (tid : Nat) (e : AnyhowError)
    (h : e.downcast_ref tid = none) : e.downcast tid = .error e := by
  simp [AnyhowError.downcast, h]

/-! Claim theorems. -/

/-- C1 counterexample: the claim asserts context frames are never candidates
for downcast, so `get_ref` after any sequence of `context` attachments (with
values of arbitrary type) still returns the root value.  But attaching a
`MyError`-typed context value on top of a root of type `MyError` makes
`get_ref` return the context value, not the root — exactly the behaviour the
crate's own test asserts at src/error.rs line 268. -/
theorem c1_counterexample :
    ((TError.from_src myOne : TError myErrTy).context myTwoCtx).get_ref ≠ some myOne := by
  decide

/-- C1 amended: `get_ref` searches the chain newest-first, so context frames
attached as typed values ARE candidates; the root value of type `E` is
returned after any sequence of context attachments whose values' types all
differ from `E` (in particular all plain-text frames). -/
theorem c1_get_ref_root_preserved (tag : Nat) (v : ErrVal) (cs : List ErrVal)
    (hv : v.tyId = tag) (hcs : ∀ c ∈ cs, c.tyId ≠ tag) :
    (cs.foldl TError.context (TError.from_src v : TError tag)).get_ref = some v := by
  rw [TError.get_ref_foldl_context cs _ hcs]
  simp [TError.get_ref, TError.from_src, AnyhowError.downcast_ref, hv]

/-- C1 witness: root `MyError::One` with a string frame and an
`OtherError`-typed frame attached; `get_ref` still finds the root. -/
theorem c1_witness :
    (([strVal "ctx", otherVal].foldl TError.context
        (TError.from_src myOne : TError myErrTy)).get_ref = some myOne) :=
  c1_get_ref_root_preserved myErrTy myOne [strVal "ctx", otherVal] (by decide) (by decide)

/-- C5 confirmed: `from(v).context(c1).context(c2)` displays exactly `c2`
(newest frame wins; the root's text shows only with no frames), and the
diagnostic dump lists `c2`, then `c1`, then `v`'s message (then `v`'s own
nested sources), in that order. -/
theorem c5_display_debug (tag : Nat) (v : ErrVal) (c1 c2 : String) :
    (((TError.from_anyhow (AnyhowError.new v) : TError tag).context
        (strVal c1)).context (strVal c2)).display = c2 ∧
    (((TError.from_anyhow (AnyhowError.new v) : TError tag).context
        (strVal c1)).context (strVal c2)).debugLines = c2 :: c1 :: v.msg :: v.sources ∧
    (TError.from_anyhow (AnyhowError.new v) : TError tag).display = v.msg :=
  ⟨rfl, rfl, rfl⟩

/-- C7 confirmed: retagging to `F` and back to `E` yields a container equal
to the original — `change_err` carries the chain forward unchanged, a pure
type-level relabeling. -/
theorem c7_retag_roundtrip (a b : Nat) (e : TError a) :
    (e.change_err b).change_err a = e := by
  cases e
  rfl

/-- C2 counterexample: the claim asserts that directly propagating a raw I/O
failure through the `?` operator's `From` conversion classifies, after
conversion, as the I/O-wrapping variant (`MyError::Three`, payload 3) and not
as the catch-all.  The code stores the raw `std::io::Error` as root without
any `Into` conversion, so `get` falls back to the catch-all
(`MyError::Two`, payload 2) — as the crate's own test asserts at
src/error.rs line 273 and the crate's top-level docs state in their
Caveats section. -/
theorem c2_counterexample :
    (TError.get myErrorFromAnyhow (TError.from_src ioVal : TError myErrTy)).payload
      ≠ (myThree ioVal).payload := by
  decide

/-- C2 amended: the direct `From` propagation path stores the raw I/O
failure as the root cause unconverted; `get_ref` finds no `MyError` and
`get` classifies as the catch-all variant (`Two`), not the I/O-wrapping
variant (`Three`).  The specific variant is produced only by the generic
lift (`terror()`), which applies `Into` before wrapping. -/
theorem c2_direct_propagation_is_catchall :
    (TError.from_src ioVal : TError myErrTy).get_ref = none ∧
    TError.get myErrorFromAnyhow (TError.from_src ioVal : TError myErrTy)
      = myTwo (AnyhowError.root ioVal) ∧
    (TError.get myErrorFromAnyhow (TError.from_src ioVal : TError myErrTy)).payload = 2 ∧
    (IntoTError.terror myThree (Except.error ioVal : Except ErrVal PUnit)
        : Except (TError myErrTy) PUnit)
      = Except.error ⟨AnyhowError.root (myThree ioVal)⟩ ∧
    (⟨AnyhowError.root (myThree ioVal)⟩ : TError myErrTy).get_ref = some (myThree ioVal) :=
  ⟨rfl, rfl, rfl, rfl, by decide⟩

/-- C3 counterexample: the claim asserts that whenever the chain's root cause
is exactly of type `E`, `get` returns that precise root value.  But `get`
searches the chain newest-first, so a newer `MyError`-typed context value
shadows the root: with root `MyError::One` and context `MyError::Two(..)`,
`get` returns the context value, not `MyError::One`. -/
theorem c3_counterexample :
    TError.get myErrorFromAnyhow
      ((TError.from_src myOne : TError myErrTy).context myTwoCtx) ≠ myOne := by
  decide

/-- C3 amended: `get` never fails and always yields a value: when the
container was built directly from a value of type `E` it returns that
precise value, and when no element of the chain (root or typed context
frame) is of type `E` it returns the `DefaultError` rule applied to the
whole chain; in general the most recent chain element of type `E` wins. -/
theorem c3_get_total (tag : Nat) (d : AnyhowError → ErrVal) (v : ErrVal)
    (e : TError tag) (hv : v.tyId = tag)
    (hmiss : e.error.downcast_ref tag = none) :
    TError.get d (TError.from_src v : TError tag) = v ∧
    TError.get d e = d e.error := by
  constructor
  · simp [TError.get, TError.try_get, TError.from_src, AnyhowError.downcast,
      AnyhowError.downcast_ref, hv]
  · simp [TError.get, TError.try_get, AnyhowError.downcast, hmiss]

/-- C3 witness: a container built from `MyError::One` yields it precisely;
a container wrapping `OtherError` yields the catch-all applied to the
chain. -/
theorem c3_witness :
    TError.get myErrorFromAnyhow (TError.from_src myOne : TError myErrTy) = myOne ∧
    TError.get myErrorFromAnyhow (⟨AnyhowError.root otherVal⟩ : TError myErrTy)
      = myErrorFromAnyhow (AnyhowError.root otherVal) :=
  c3_get_total myErrTy myErrorFromAnyhow myOne ⟨AnyhowError.root otherVal⟩
    (by decide) (by decide)

/-- C4 counterexample: the claim asserts `try_get` fails whenever the root
cause is not of type `E`.  But `try_get` searches the whole chain: with root
`OtherError` and a `MyError`-typed context frame on top, it succeeds with
the context value instead of failing. -/
theorem c4_counterexample :
    TError.try_get ((TError.from_src otherVal : TError myErrTy).context myTwoCtx)
      = Except.ok myTwoCtx := by
  rfl

/-- C4 amended: when NO element of the chain (root cause or typed context
frame) is of type `E`, `try_get` fails and the failure carries a container
wrapping the chain unchanged — it is equal to the original container, so its
summary display and diagnostic dump are identical and no information is
lost. -/
theorem c4_try_get_no_loss (tag : Nat) (e : TError tag)
    (h : e.error.downcast_ref tag = none) :
    e.try_get = Except.error e ∧
    (TError.display e = TError.display e ∧ TError.debugLines e = TError.debugLines e) := by
  refine ⟨?_, rfl, rfl⟩
  cases e with
  | mk err => simp [TError.try_get, AnyhowError.downcast, h]

/-- C4 witness: a container wrapping only `OtherError`, tagged `MyError`. -/
theorem c4_witness :
    (⟨AnyhowError.root otherVal⟩ : TError myErrTy).try_get
      = Except.error (⟨AnyhowError.root otherVal⟩ : TError myErrTy) ∧
    (TError.display (⟨AnyhowError.root otherVal⟩ : TError myErrTy)
        = TError.display (⟨AnyhowError.root otherVal⟩ : TError myErrTy) ∧
      TError.debugLines (⟨AnyhowError.root otherVal⟩ : TError myErrTy)
        = TError.debugLines (⟨AnyhowError.root otherVal⟩ : TError myErrTy)) :=
  c4_try_get_no_loss myErrTy ⟨AnyhowError.root otherVal⟩ (by decide)

/-- C6 confirmed: `terror()` maps `Ok(v)` to `Ok(v)` unchanged, and maps
`Err(e)` to a failure whose container is tagged `EOut` with the converted
value as root cause, so `get_ref` for `EOut` succeeds with the converted
(matching) value. -/
theorem c6_terror {α : Type} (dst : Nat) (conv : ErrVal → ErrVal) (v : α)
    (e : ErrVal) (h : (conv e).tyId = dst) :
    (IntoTError.terror conv (Except.ok v) : Except (TError dst) α) = Except.ok v ∧
    (IntoTError.terror conv (Except.error e) : Except (TError dst) α)
      = Except.error ⟨AnyhowError.root (conv e)⟩ ∧
    (⟨AnyhowError.root (conv e)⟩ : TError dst).get_ref = some (conv e) := by
  refine ⟨rfl, rfl, ?_⟩
  simp [TError.get_ref, AnyhowError.downcast_ref, h]

/-- C6 witness: lifting a concrete I/O failure through `Into<MyError>`
(variant `Three`) and checking `get_ref` recovers it. -/
theorem c6_witness :
    (IntoTError.terror myThree (Except.ok 0) : Except (TError myErrTy) Nat)
      = Except.ok 0 ∧
    (IntoTError.terror myThree (Except.error ioVal) : Except (TError myErrTy) Nat)
      = Except.error ⟨AnyhowError.root (myThree ioVal)⟩ ∧
    (⟨AnyhowError.root (myThree ioVal)⟩ : TError myErrTy).get_ref
      = some (myThree ioVal) :=
  c6_terror myErrTy myThree 0 ioVal (by decide)

/-- C8 confirmed: `Result::context` leaves `Ok(v)` unchanged; on `Err(e)` it
produces a container whose chain has the lifted error as root cause with
exactly one context frame (the stringified context) on top, and the root is
still recoverable via `downcast_ref` at its own type (which, being a
`std::error::Error` type, is never `String`). -/
theorem c8_result_context {α : Type} (x : Nat) (v : α) (err c : ErrVal)
    (h : err.tyId ≠ strTy) :
    (Result.context (Except.ok v) c : Except (TError x) α) = Except.ok v ∧
    (Result.context (Except.error err) c : Except (TError x) α)
      = Except.error ⟨AnyhowError.ctx (strVal c.msg) (AnyhowError.root err)⟩ ∧
    (⟨AnyhowError.ctx (strVal c.msg) (AnyhowError.root err)⟩
        : TError x).downcast_ref err.tyId = some err := by
  refine ⟨rfl, rfl, ?_⟩
  have h2 : strTy ≠ err.tyId := Ne.symm h
  simp [TError.downcast_ref, AnyhowError.downcast_ref, strVal, h2]

/-- C8 witness: `Err(OtherError).context("ctx")` tagged `MyError`. -/
theorem c8_witness :
    (Result.context (Except.ok 0) (strVal "ctx") : Except (TError myErrTy) Nat)
      = Except.ok 0 ∧
    (Result.context (Except.error otherVal) (strVal "ctx") : Except (TError myErrTy) Nat)
      = Except.error ⟨AnyhowError.ctx (strVal (strVal "ctx").msg)
          (AnyhowError.root otherVal)⟩ ∧
    (⟨AnyhowError.ctx (strVal (strVal "ctx").msg) (AnyhowError.root otherVal)⟩
        : TError myErrTy).downcast_ref otherVal.tyId = some otherVal :=
  c8_result_context myErrTy 0 otherVal (strVal "ctx") (by decide)

/-- C9: evidence for the code bug.  The claim (and the method's own doc
comment, src/error.rs lines 130-131) says the lazy context closure is never
invoked on `Ok(v)`.  But the body `self.context(f())` (line 160) evaluates
`f()` before `context` dispatches on the result, so on the success input
`Ok(0)` the invocation counter rises from 0 to 1 even though the output is
still `Ok(0)`: the caller pays the formatting cost on the success path. -/
theorem c9_closure_runs_on_ok :
    (Result.with_context_traced (Except.ok 0 : Except ErrVal Nat)
        (Traced.tick (strVal "expensive")) 0 : (Except (TError myErrTy) Nat) × Nat)
      = (Except.ok 0, 1) :=
  rfl

/-- C10 counterexample: the claim asserts that for EVERY non-string context
type `C` attached via `Result::context`, a later `downcast_ref::<C>()`
returns `None`.  Take `C = OtherError` attached to `Err(OtherError)`: the
frame is indeed only the string `"OtherError"`, but the root cause itself
has type `C`, so `downcast_ref` returns it — not `None`. -/
theorem c10_counterexample :
    (Result.context (Except.error otherVal) otherVal : Except (TError myErrTy) PUnit)
      = Except.error ⟨AnyhowError.ctx (strVal "OtherError") (AnyhowError.root otherVal)⟩ ∧
    (⟨AnyhowError.ctx (strVal "OtherError") (AnyhowError.root otherVal)⟩
        : TError myErrTy).downcast_ref otherTy ≠ none :=
  ⟨rfl, by decide⟩

/-- C10 amended: for a non-string context type `C` that is also not the type
of the underlying error, `Result::context` stores only the stringified
rendering, so `downcast_ref::<C>()` returns `None`; the same value attached
via the container's own `context` method is stored as a typed value and
`downcast_ref::<C>()` recovers it. -/
theorem c10_string_vs_typed (x : Nat) (err c : ErrVal) (e : TError x)
    (h1 : c.tyId ≠ strTy) (h2 : c.tyId ≠ err.tyId) :
    (Result.context (Except.error err) c : Except (TError x) PUnit)
      = Except.error ⟨AnyhowError.ctx (strVal c.msg) (AnyhowError.root err)⟩ ∧
    (⟨AnyhowError.ctx (strVal c.msg) (AnyhowError.root err)⟩
        : TError x).downcast_ref c.tyId = none ∧
    (e.context c).downcast_ref c.tyId = some c := by
  refine ⟨rfl, ?_, ?_⟩
  · have g1 : strTy ≠ c.tyId := Ne.symm h1
    have g2 : err.tyId ≠ c.tyId := Ne.symm h2
    simp [TError.downcast_ref, AnyhowError.downcast_ref, strVal, g1, g2]
  · simp [TError.downcast_ref, TError.context, AnyhowError.context,
      AnyhowError.downcast_ref]

/-- C10 witness: a `MyError`-typed context value attached over an
`OtherError` root, both paths evaluated concretely. -/
theorem c10_witness :
    (Result.context (Except.error otherVal) myTwoCtx : Except (TError myErrTy) PUnit)
      = Except.error ⟨AnyhowError.ctx (strVal myTwoCtx.msg) (AnyhowError.root otherVal)⟩ ∧
    (⟨AnyhowError.ctx (strVal myTwoCtx.msg) (AnyhowError.root otherVal)⟩
        : TError myErrTy).downcast_ref myTwoCtx.tyId = none ∧
    ((⟨AnyhowError.root otherVal⟩ : TError myErrTy).context myTwoCtx).downcast_ref
      myTwoCtx.tyId = some myTwoCtx :=
  c10_string_vs_typed myErrTy otherVal myTwoCtx ⟨AnyhowError.root otherVal⟩
    (by decide) (by decide)
